import Mathlib

/-!
Verification development for the p2p-git-remote daemon.

We give a shallow embedding of the daemon's peer-session protocol:
the trust-gated stream dispatch, the per-command handlers, the
stash-aware branch switch, and the message read path.  External
collaborators (the git executable, the filesystem, the operator's
stdin) are modelled as oracles supplied in an environment; every
handler returns the updated daemon state together with the trace of
observable events (backend invocations, filesystem accesses, responses
written back on the stream, error logs).
-/

namespace P2PGit

/-! ## String helpers (structural, mirroring the Go standard library) -/

/-- Character-level prefix test (mirrors the list structure of strings.HasPrefix). -/
def prefixCh : List Char → List Char → Bool
  | [], _ => true
  | _ :: _, [] => false
  | a :: as, b :: bs => (a = b) && prefixCh as bs

/-- Go strings.HasPrefix s pre. -/
def goHasPrefix (s pre : String) : Bool :=
  prefixCh pre.data s.data

/-- Character-level substring test. -/
def infixCh (pat : List Char) : List Char → Bool
  | [] => pat.isEmpty
  | c :: cs => prefixCh pat (c :: cs) || infixCh pat cs

/-- Go strings.Contains s sub. -/
def goContains (s sub : String) : Bool :=
  infixCh sub.data s.data

/-- Split a character list on a separator character. -/
def splitCh (sep : Char) : List Char → List (List Char)
  | [] => [[]]
  | c :: cs =>
    let r := splitCh sep cs
    if c = sep then [] :: r
    else
      match r with
      | [] => [[c]]
      | h :: t => (c :: h) :: t

/-- Split a string on a single-character separator (as strings.Split does for it). -/
def splitString (sep : Char) (s : String) : List String :=
  (splitCh sep s.data).map String.mk

/-- Go strings.TrimSpace. -/
def goTrimSpace (s : String) : String :=
  String.mk (((s.data.dropWhile Char.isWhitespace).reverse.dropWhile Char.isWhitespace).reverse)

/-- Go strings.ToLower (ASCII case folding suffices for the daemon's y/n prompt). -/
def goToLower (s : String) : String :=
  String.mk (s.data.map Char.toLower)

/-- Join a list of strings with a separator (strings.Join). -/
def joinWith (sep : String) : List String → String
  | [] => ""
  | [x] => x
  | x :: y :: t => x ++ sep ++ joinWith sep (y :: t)

/-- Go fmt's %v rendering of a string slice, used in one error message. -/
def goSliceString (xs : List String) : String :=
  "[" ++ joinWith " " xs ++ "]"

/-- Association-list lookup with string keys (Go map read). -/
def lookupStr (m : List (String × String)) (k : String) : Option String :=
  match m with
  | [] => none
  | (k', v) :: rest => if k' = k then some v else lookupStr rest k

/-- Association-list insert/overwrite (Go map write). -/
def upsertStr (m : List (String × String)) (k v : String) : List (String × String) :=
  match m with
  | [] => [(k, v)]
  | (k', v') :: rest => if k' = k then (k, v) :: rest else (k', v') :: upsertStr rest k v

/-- String list membership (Go map-of-bool read in the trust store). -/
def containsStr (xs : List String) (k : String) : Bool :=
  match xs with
  | [] => false
  | x :: rest => if x = k then true else containsStr rest k

/-- Add a peer to the trust set (Go map-of-bool write). -/
def addStr (xs : List String) (k : String) : List String :=
  if containsStr xs k then xs else xs ++ [k]

/-! ## Path model (Go path/filepath on Unix) -/

/-- Core of filepath.Clean: process the slash-separated elements, resolving
"." and ".." lexically.  The accumulator is the reversed stack of kept
elements. -/
def cleanStack (rooted : Bool) : List String → List String → List String
  | acc, [] => acc
  | acc, p :: ps =>
    if p = "" ∨ p = "." then cleanStack rooted acc ps
    else if p = ".." then
      match acc with
      | [] => cleanStack rooted (if rooted then [] else [".."]) ps
      | a :: rest =>
        if a = ".." then cleanStack rooted (".." :: a :: rest) ps
        else cleanStack rooted rest ps
    else cleanStack rooted (p :: acc) ps

/-- Go filepath.Clean on Unix paths. -/
def filepathClean (path : String) : String :=
  if path = "" then "."
  else
    let rooted := goHasPrefix path "/"
    let kept := (cleanStack rooted [] (splitString '/' path)).reverse
    let joined := joinWith "/" kept
    if rooted then (if joined = "" then "/" else "/" ++ joined)
    else (if joined = "" then "." else joined)

/-- Go filepath.Join of two elements: join the non-empty ones with a slash
and Clean the result. -/
def filepathJoin (a b : String) : String :=
  if a = "" ∧ b = "" then ""
  else if a = "" then filepathClean b
  else if b = "" then filepathClean a
  else filepathClean (a ++ "/" ++ b)

/-- Go filepath.Abs relative to a working directory (the error case cannot
occur once a working directory is known). -/
def filepathAbs (cwd path : String) : String :=
  if goHasPrefix path "/" then filepathClean path else filepathJoin cwd path

/-- A resolved path lies lexically within a root when it equals the cleaned
root or sits strictly below it (root plus a path separator). -/
def withinRoot (root p : String) : Bool :=
  let r := filepathClean root
  (p = r) || goHasPrefix p (r ++ "/")

/-- Modelled from the spec: a peer-supplied relative path "resolves outside
the repository root" when joining it to the root yields a path that is not
lexically contained in the root. -/
def resolvesOutside (root rel : String) : Bool :=
  ! withinRoot root (filepathJoin root rel)

/-! ## Protocol data model -/

/-- A flat JSON object with string fields covers every request payload of
the protocol; `malformed` stands for bytes that json.Unmarshal rejects.
A shape mismatch in Go leaves absent fields at their zero value, which
`getField`'s empty-string default reproduces. -/
inductive RawPayload
  | json (fields : List (String × String))
  | malformed
deriving DecidableEq

/-- Read a string field of a decoded payload, defaulting to Go's zero value. -/
def getField (fields : List (String × String)) (k : String) : String :=
  match lookupStr fields k with
  | some v => v
  | none => ""

/-- Fields of a payload whose Unmarshal error is ignored by the handler:
a malformed payload leaves the Go struct at its zero value. -/
def RawPayload.fieldsOrZero : RawPayload → List (String × String)
  | .json fs => fs
  | .malformed => []

/-- The wire envelope: a type tag and a raw payload. -/
structure Message where
  type : String
  payload : RawPayload
deriving DecidableEq

/-- Response payloads, one constructor per response schema. -/
inductive RespPayload
  | handshake (approved : Bool)
  | listRepos (repos : List String)
  | readFile (success : Bool) (content : String) (error : String)
  | writeFile (success : Bool) (error : String)
  | listFiles (success : Bool) (files : List String) (error : String)
  | createBranch (success : Bool) (output : String)
  | renameFile (success : Bool) (error : String)
  | listBranches (success : Bool) (branches : List String) (error : String)
  | linkRepo (success : Bool) (error : String)
  | switchBranch (success : Bool) (output : String)
  | gitCommit (success : Bool) (output : String)
  | gitStatus (success : Bool) (output : String)
  | gitLog (success : Bool) (output : String)
  | gitDiff (success : Bool) (output : String)
  | stashSave (success : Bool) (output : String)
  | stashPop (success : Bool) (output : String)
  | gitReset (success : Bool) (output : String)
deriving DecidableEq

/-- Observable events of one stream-handling execution: backend and
filesystem effects, persistence, lock operations (in the vocabulary so
that serialization claims are expressible), responses written to the
stream, and the one error log the read path guards with an EOF test. -/
inductive Event
  | gitRun (dir : String) (args : List String)
  | fsRead (path : String)
  | fsWrite (path : String) (content : String)
  | fsWalk (root : String)
  | persistRepos
  | persistTrust
  | lockAcquire (root : String)
  | lockRelease (root : String)
  | respond (type : String) (payload : RespPayload)
  | logError (msg : String)
deriving DecidableEq

/-- Result of running the external git executable: combined output and
whether it exited zero (err == nil). -/
structure GitResult where
  out : String
  ok : Bool
deriving DecidableEq

/-- Oracles for the external collaborators. -/
structure Env where
  git : String → List String → GitResult
  readFile : String → Except String String
  writeFile : String → String → Option String
  walkDir : String → Except String (List String)
  saveRepos : Option String
  stdinAnswer : String
  cwd : String

/-- Mutable daemon state shared across sessions: the trust store's peer
set and the alias-to-root repository registry. -/
structure DaemonState where
  trusted : List String
  linkedRepos : List (String × String)
deriving DecidableEq

/-- What the transport delivered on the stream before decoding. -/
inductive StreamInput
  | closed
  | bad (jsonErr : String)
  | ok (m : Message)
deriving DecidableEq

/-- protocol.ReadMessage: json decoding wrapped with fmt.Errorf("failed to
decode message: %w", err).  A stream closed before any byte yields the
underlying io.EOF ("EOF"); invalid bytes yield some other json error. -/
def readMessage : StreamInput → Except String Message
  | .closed => .error ("failed to decode message: " ++ "EOF")
  | .bad e => .error ("failed to decode message: " ++ e)
  | .ok m => .ok m

/-- The repository aliases, in registry order (Go map iteration order is
unspecified; the registry's list order stands in for it). -/
def getRepoAliases (repos : List (String × String)) : List String :=
  repos.map (·.1)

/-! ## git backend helper (internal/git) -/

/-- git.CommitAndPush: checkout, add, commit, push; a commit failure whose
output contains "nothing to commit" is rewritten into a success.  Returns
the trace of backend invocations together with (output, err == nil). -/
def CommitAndPush (env : Env) (repoPath commitMessage remote branch : String) :
    List Event × String × Bool :=
  let rCheckout := env.git repoPath ["checkout", branch]
  let e1 := [Event.gitRun repoPath ["checkout", branch]]
  if rCheckout.ok = false then (e1, rCheckout.out, false)
  else
    let rAdd := env.git repoPath ["add", "."]
    let e2 := e1 ++ [Event.gitRun repoPath ["add", "."]]
    if rAdd.ok = false then (e2, rAdd.out, false)
    else
      let rCommit := env.git repoPath ["commit", "-m", commitMessage]
      let e3 := e2 ++ [Event.gitRun repoPath ["commit", "-m", commitMessage]]
      if rCommit.ok = false then
        if goContains rCommit.out "nothing to commit" then
          (e3, "Working tree is clean. Nothing to commit.", true)
        else (e3, rCommit.out, false)
      else
        let rPush := env.git repoPath ["push", remote, branch]
        let e4 := e3 ++ [Event.gitRun repoPath ["push", remote, branch]]
        if rPush.ok = false then (e4, rPush.out, false)
        else (e4, "Successfully pushed to " ++ remote ++ "/" ++ branch ++ "\n" ++ rPush.out, true)

/-! ## Command handlers (cmd/daemon) -/

/-- handleGitCommit: resolve the alias, run CommitAndPush, answer with its
output and err == nil; an unparseable payload is dropped with no answer. -/
def handleGitCommit (env : Env) (st : DaemonState) (raw : RawPayload) :
    DaemonState × List Event :=
  match raw with
  | .malformed => (st, [])
  | .json fs =>
    let repoAlias := getField fs "repo_path"
    match lookupStr st.linkedRepos repoAlias with
    | none =>
      (st, [Event.respond "GIT_COMMIT_RESPONSE" (.gitCommit false
        ("Error: Unknown repository alias '" ++ repoAlias ++ "'. Known aliases: " ++
          goSliceString (getRepoAliases st.linkedRepos)))])
    | some repoPath =>
      let r := CommitAndPush env repoPath (getField fs "message") "origin" (getField fs "branch")
      (st, r.1 ++ [Event.respond "GIT_COMMIT_RESPONSE" (.gitCommit r.2.2 r.2.1)])

/-- handleListRepos: answer with the registered aliases. -/
def handleListRepos (_env : Env) (st : DaemonState) : DaemonState × List Event :=
  (st, [Event.respond "LIST_REPOS_RESPONSE" (.listRepos (getRepoAliases st.linkedRepos))])

/-- handleReadFile: alias lookup, lexical containment check via
strings.HasPrefix of the joined path against the cleaned root, then the
filesystem read. -/
def handleReadFile (env : Env) (st : DaemonState) (raw : RawPayload) :
    DaemonState × List Event :=
  match raw with
  | .malformed => (st, [])
  | .json fs =>
    let repoAlias := getField fs "repo_path"
    let filePath := getField fs "file_path"
    match lookupStr st.linkedRepos repoAlias with
    | none =>
      (st, [Event.respond "READ_FILE_RESPONSE" (.readFile false ""
        ("Unknown repository alias: " ++ repoAlias))])
    | some repoRoot =>
      let fullPath := filepathJoin repoRoot filePath
      let cleanRepoRoot := filepathClean repoRoot
      if goHasPrefix fullPath cleanRepoRoot = false then
        (st, [Event.respond "READ_FILE_RESPONSE" (.readFile false ""
          "Access denied: path is outside of repository root")])
      else
        match env.readFile fullPath with
        | .error e =>
          (st, [Event.fsRead fullPath,
            Event.respond "READ_FILE_RESPONSE" (.readFile false "" e)])
        | .ok content =>
          (st, [Event.fsRead fullPath,
            Event.respond "READ_FILE_RESPONSE" (.readFile true content "")])

/-- handleWriteFile: same containment check, then os.WriteFile. -/
def handleWriteFile (env : Env) (st : DaemonState) (raw : RawPayload) :
    DaemonState × List Event :=
  match raw with
  | .malformed => (st, [])
  | .json fs =>
    let repoAlias := getField fs "repo_path"
    let filePath := getField fs "file_path"
    let content := getField fs "content"
    match lookupStr st.linkedRepos repoAlias with
    | none =>
      (st, [Event.respond "WRITE_FILE_RESPONSE" (.writeFile false "unknown repository alias")])
    | some repoRoot =>
      let fullPath := filepathJoin repoRoot filePath
      let cleanRepoRoot := filepathClean repoRoot
      if goHasPrefix fullPath cleanRepoRoot = false then
        (st, [Event.respond "WRITE_FILE_RESPONSE" (.writeFile false
          "Access denied: path is outside of repository root")])
      else
        match env.writeFile fullPath content with
        | some e =>
          (st, [Event.fsWrite fullPath content,
            Event.respond "WRITE_FILE_RESPONSE" (.writeFile false e)])
        | none =>
          (st, [Event.fsWrite fullPath content,
            Event.respond "WRITE_FILE_RESPONSE" (.writeFile true "")])

/-- handleListFiles: walk the repository root, skipping .git, and answer
with the relative file list (the walk is an oracle). -/
def handleListFiles (env : Env) (st : DaemonState) (raw : RawPayload) :
    DaemonState × List Event :=
  match raw with
  | .malformed => (st, [])
  | .json fs =>
    match lookupStr st.linkedRepos (getField fs "repo_path") with
    | none =>
      (st, [Event.respond "LIST_FILES_RESPONSE" (.listFiles false [] "unknown repository alias")])
    | some repoRoot =>
      match env.walkDir repoRoot with
      | .error e =>
        (st, [Event.fsWalk repoRoot,
          Event.respond "LIST_FILES_RESPONSE" (.listFiles false [] e)])
      | .ok files =>
        (st, [Event.fsWalk repoRoot,
          Event.respond "LIST_FILES_RESPONSE" (.listFiles true files "")])

/-- handleCreateBranch: git branch name on the resolved root. -/
def handleCreateBranch (env : Env) (st : DaemonState) (raw : RawPayload) :
    DaemonState × List Event :=
  match raw with
  | .malformed => (st, [])
  | .json fs =>
    let repoAlias := getField fs "repo_path"
    let name := getField fs "new_branch_name"
    match lookupStr st.linkedRepos repoAlias with
    | none =>
      (st, [Event.respond "CREATE_BRANCH_RESPONSE" (.createBranch false
        ("Unknown repository alias: " ++ repoAlias))])
    | some repoPath =>
      let r := env.git repoPath ["branch", name]
      (st, [Event.gitRun repoPath ["branch", name],
        Event.respond "CREATE_BRANCH_RESPONSE"
          (if r.ok = false then .createBranch false r.out
           else .createBranch true ("Branch '" ++ name ++ "' created."))])

/-- handleRenameFile: the Unmarshal error is ignored, and the handler runs
git mv on the peer-supplied relative paths with no containment check. -/
def handleRenameFile (env : Env) (st : DaemonState) (raw : RawPayload) :
    DaemonState × List Event :=
  let fs := raw.fieldsOrZero
  let oldPath := getField fs "old_path"
  let newPath := getField fs "new_path"
  match lookupStr st.linkedRepos (getField fs "repo_path") with
  | none =>
    (st, [Event.respond "RENAME_FILE_RESPONSE" (.renameFile false "unknown repository alias")])
  | some repoPath =>
    let r := env.git repoPath ["mv", oldPath, newPath]
    (st, [Event.gitRun repoPath ["mv", oldPath, newPath],
      Event.respond "RENAME_FILE_RESPONSE"
        (if r.ok = false then .renameFile false r.out else .renameFile true "")])

/-- handleListBranches: git branch --format, split into trimmed non-empty
branch names. -/
def handleListBranches (env : Env) (st : DaemonState) (raw : RawPayload) :
    DaemonState × List Event :=
  match raw with
  | .malformed => (st, [])
  | .json fs =>
    match lookupStr st.linkedRepos (getField fs "repo_path") with
    | none =>
      (st, [Event.respond "LIST_BRANCHES_RESPONSE" (.listBranches false [] "unknown repository alias")])
    | some repoPath =>
      let r := env.git repoPath ["branch", "--format", "%(refname:short)"]
      (st, [Event.gitRun repoPath ["branch", "--format", "%(refname:short)"],
        Event.respond "LIST_BRANCHES_RESPONSE"
          (if r.ok = false then .listBranches false [] r.out
           else .listBranches true
             (((splitString '\n' (goTrimSpace r.out)).map goTrimSpace).filter
               (fun b => if b = "" then false else true)) "")])

/-- handleLinkRepo: make the path absolute, register the alias, persist the
registry; the in-memory registry keeps the entry even when persisting
fails. -/
def handleLinkRepo (env : Env) (st : DaemonState) (raw : RawPayload) :
    DaemonState × List Event :=
  match raw with
  | .malformed => (st, [])
  | .json fs =>
    let repoAlias := getField fs "alias"
    let absPath := filepathAbs env.cwd (getField fs "path")
    let st' := { st with linkedRepos := upsertStr st.linkedRepos repoAlias absPath }
    match env.saveRepos with
    | some e =>
      (st', [Event.persistRepos,
        Event.respond "LINK_REPO_RESPONSE" (.linkRepo false ("Failed to save repo list: " ++ e))])
    | none =>
      (st', [Event.persistRepos, Event.respond "LINK_REPO_RESPONSE" (.linkRepo true "")])

/-! ## Stash search (findStashIndex) -/

/-- Leftmost match of the regular expression stash@ brace digits brace when
it starts at the head of the character list. -/
def stashHeadMatch (cs : List Char) : Option String :=
  let pre := ("stash@\x7b").data
  if prefixCh pre cs then
    let rest := cs.drop pre.length
    let ds := rest.takeWhile Char.isDigit
    let rest2 := rest.drop ds.length
    if ds.isEmpty then none
    else
      match rest2 with
      | '\x7d' :: _ => some (String.mk (pre ++ ds ++ ['\x7d']))
      | _ => none
  else none

/-- Scan left to right for the first stash@ brace digits brace token. -/
def findStashRefAux : List Char → Option String
  | [] => none
  | c :: cs =>
    match stashHeadMatch (c :: cs) with
    | some s => some s
    | none => findStashRefAux cs

/-- The regexp extraction used by findStashIndex on one stash-list line. -/
def extractStashRef (line : String) : Option String :=
  findStashRefAux line.data

/-- The line scan of findStashIndex: the first line (in the backend's
most-recent-first listing order) that CONTAINS the wanted message as a
substring and from which a stash reference can be extracted. -/
def findStashLine : List String → String → Option String
  | [], _ => none
  | l :: ls, msg =>
    if goContains l msg then
      match extractStashRef l with
      | some ref => some ref
      | none => findStashLine ls msg
    else findStashLine ls msg

/-- findStashIndex: run git stash list and scan its lines. -/
def findStashIndex (env : Env) (repoPath stashMessage : String) :
    List Event × Option String :=
  let r := env.git repoPath ["stash", "list"]
  ([Event.gitRun repoPath ["stash", "list"]],
    if r.ok = false then none
    else findStashLine (splitString '\n' r.out) stashMessage)

/-- Modelled from the spec: a stash entry as the spec's data model sees it,
with the saved message as its own key (git stash list renders such an
entry as ref followed by On branch and the message). -/
structure StashEntry where
  ref : String
  branch : String
  message : String
deriving DecidableEq

/-- Rendering of a stash entry in the backend's listing. -/
def renderStashLine (e : StashEntry) : String :=
  e.ref ++ ": On " ++ e.branch ++ ": " ++ e.message

/-- Modelled from the spec: search for the first entry in most-recent-first
order whose message matches the tag EXACTLY. -/
def findStashExact : List StashEntry → String → Option String
  | [], _ => none
  | e :: es, tag => if e.message = tag then some e.ref else findStashExact es tag

/-! ## Branch switch (handleSwitchBranch) -/

/-- Output for a switch that found and popped a prior stash. -/
def restoredMsg (branch popOut : String) : String :=
  "Switched to branch '" ++ branch ++ "'.\nRestored previous work for this branch:\n" ++ popOut

/-- Output for a switch with no prior stash for the target branch. -/
def noStashMsg (branch : String) : String :=
  "Switched to branch '" ++ branch ++ "'. No previous work was stashed for this branch."

/-- Output for a switch to the branch already checked out. -/
def alreadyOnMsg (branch : String) : String :=
  "Already on branch '" ++ branch ++ "'."

/-- handleSwitchBranch: read the current branch from the backend, no-op if
already on the target, otherwise stash, checkout, and try to pop the stash
tagged for the target branch.  When reading the current branch fails the
Go code returns with no response (the handle error comment). -/
def handleSwitchBranch (env : Env) (st : DaemonState) (raw : RawPayload) :
    DaemonState × List Event :=
  let fs := raw.fieldsOrZero
  let repoAlias := getField fs "repo_path"
  let branch := getField fs "branch_name"
  match lookupStr st.linkedRepos repoAlias with
  | none =>
    (st, [Event.respond "SWITCH_BRANCH_RESPONSE"
      (.switchBranch false "Error: unknown repository alias")])
  | some repoPath =>
    let rCur := env.git repoPath ["rev-parse", "--abbrev-ref", "HEAD"]
    let e0 := [Event.gitRun repoPath ["rev-parse", "--abbrev-ref", "HEAD"]]
    if rCur.ok = false then (st, e0)
    else
      let currentBranch := goTrimSpace rCur.out
      if currentBranch = branch then
        (st, e0 ++ [Event.respond "SWITCH_BRANCH_RESPONSE"
          (.switchBranch true (alreadyOnMsg branch))])
      else
        let stashMsg := "p2p-auto-stash-for-" ++ currentBranch
        let e1 := e0 ++ [Event.gitRun repoPath ["stash", "save", "--include-untracked", stashMsg]]
        let rCheckout := env.git repoPath ["checkout", branch]
        let e2 := e1 ++ [Event.gitRun repoPath ["checkout", branch]]
        if rCheckout.ok = false then
          (st, e2 ++ [Event.respond "SWITCH_BRANCH_RESPONSE"
            (.switchBranch false rCheckout.out)])
        else
          let popStashMsg := "p2p-auto-stash-for-" ++ branch
          let fRes := findStashIndex env repoPath popStashMsg
          match fRes.2 with
          | some index =>
            let rPop := env.git repoPath ["stash", "pop", index]
            (st, e2 ++ fRes.1 ++ [Event.gitRun repoPath ["stash", "pop", index],
              Event.respond "SWITCH_BRANCH_RESPONSE"
                (.switchBranch true (restoredMsg branch rPop.out))])
          | none =>
            (st, e2 ++ fRes.1 ++ [Event.respond "SWITCH_BRANCH_RESPONSE"
              (.switchBranch true (noStashMsg branch))])

/-! ## Status, log, diff, stash, reset handlers -/

/-- handleGitStatus: runs git status --porcelain, DISCARDS its error, and
always reports success with either the output or a clean-tree message. -/
def handleGitStatus (env : Env) (st : DaemonState) (raw : RawPayload) :
    DaemonState × List Event :=
  let fs := raw.fieldsOrZero
  match lookupStr st.linkedRepos (getField fs "repo_path") with
  | none =>
    (st, [Event.respond "GIT_STATUS_RESPONSE" (.gitStatus false "Error: unknown repository alias")])
  | some repoPath =>
    let r := env.git repoPath ["status", "--porcelain"]
    (st, [Event.gitRun repoPath ["status", "--porcelain"],
      Event.respond "GIT_STATUS_RESPONSE"
        (.gitStatus true (if r.out = "" then "Working tree is clean." else r.out))])

/-- The argument vector of the daemon's git log invocation. -/
def gitLogArgs : List String :=
  ["log", "--graph",
   "--pretty=format:'%Cred%h%Creset -%C(yellow)%d%Creset %s %Cgreen(%cr) %C(bold blue)<%an>%Creset'",
   "--abbrev-commit", "-n", "15"]

/-- handleGitLog: success is the backend's err == nil, output its combined
output. -/
def handleGitLog (env : Env) (st : DaemonState) (raw : RawPayload) :
    DaemonState × List Event :=
  let fs := raw.fieldsOrZero
  match lookupStr st.linkedRepos (getField fs "repo_path") with
  | none =>
    (st, [Event.respond "GIT_LOG_RESPONSE" (.gitLog false "Error: unknown repository alias")])
  | some repoPath =>
    let r := env.git repoPath gitLogArgs
    (st, [Event.gitRun repoPath gitLogArgs,
      Event.respond "GIT_LOG_RESPONSE" (.gitLog r.ok r.out)])

/-- handleGitDiff: whole-repo or single-file diff. -/
def handleGitDiff (env : Env) (st : DaemonState) (raw : RawPayload) :
    DaemonState × List Event :=
  let fs := raw.fieldsOrZero
  let filePath := getField fs "file_path"
  match lookupStr st.linkedRepos (getField fs "repo_path") with
  | none =>
    (st, [Event.respond "GIT_DIFF_RESPONSE" (.gitDiff false "Error: unknown repository alias")])
  | some repoPath =>
    let args := if filePath = "" then ["diff", "--color"] else ["diff", "--color", "--", filePath]
    let r := env.git repoPath args
    (st, [Event.gitRun repoPath args,
      Event.respond "GIT_DIFF_RESPONSE"
        (.gitDiff r.ok (if r.out = "" then "No differences found." else r.out))])

/-- handleGitStashSave: stash including untracked files under a fixed tag. -/
def handleGitStashSave (env : Env) (st : DaemonState) (raw : RawPayload) :
    DaemonState × List Event :=
  let fs := raw.fieldsOrZero
  match lookupStr st.linkedRepos (getField fs "repo_path") with
  | none =>
    (st, [Event.respond "GIT_STASH_SAVE_RESPONSE" (.stashSave false "Error: unknown repository alias")])
  | some repoPath =>
    let r := env.git repoPath ["stash", "save", "--include-untracked", "p2p-remote-stash"]
    (st, [Event.gitRun repoPath ["stash", "save", "--include-untracked", "p2p-remote-stash"],
      Event.respond "GIT_STASH_SAVE_RESPONSE" (.stashSave r.ok r.out)])

/-- handleGitStashPop: pop the most recent stash. -/
def handleGitStashPop (env : Env) (st : DaemonState) (raw : RawPayload) :
    DaemonState × List Event :=
  let fs := raw.fieldsOrZero
  match lookupStr st.linkedRepos (getField fs "repo_path") with
  | none =>
    (st, [Event.respond "GIT_STASH_POP_RESPONSE" (.stashPop false "Error: unknown repository alias")])
  | some repoPath =>
    let r := env.git repoPath ["stash", "pop"]
    (st, [Event.gitRun repoPath ["stash", "pop"],
      Event.respond "GIT_STASH_POP_RESPONSE" (.stashPop r.ok r.out)])

/-- handleGitReset: hard reset to HEAD. -/
def handleGitReset (env : Env) (st : DaemonState) (raw : RawPayload) :
    DaemonState × List Event :=
  let fs := raw.fieldsOrZero
  match lookupStr st.linkedRepos (getField fs "repo_path") with
  | none =>
    (st, [Event.respond "GIT_RESET_RESPONSE" (.gitReset false "Error: unknown repository alias")])
  | some repoPath =>
    let r := env.git repoPath ["reset", "--hard", "HEAD"]
    (st, [Event.gitRun repoPath ["reset", "--hard", "HEAD"],
      Event.respond "GIT_RESET_RESPONSE" (.gitReset r.ok r.out)])

/-! ## Stream routing -/

/-- handleTrustedStream: read one message; an EOF-equal error string is a
benign disconnect, any other read error is logged; then dispatch on the
type tag, dropping unknown tags with no response. -/
def handleTrustedStream (env : Env) (st : DaemonState) (input : StreamInput) :
    DaemonState × List Event :=
  match readMessage input with
  | .error e =>
    (st, if e = "EOF" then []
      else [Event.logError ("Failed to read command from trusted peer: " ++ e)])
  | .ok msg =>
    match msg.type with
    | "GIT_COMMIT_REQUEST" => handleGitCommit env st msg.payload
    | "LIST_REPOS_REQUEST" => handleListRepos env st
    | "READ_FILE_REQUEST" => handleReadFile env st msg.payload
    | "LIST_FILES_REQUEST" => handleListFiles env st msg.payload
    | "CREATE_BRANCH_REQUEST" => handleCreateBranch env st msg.payload
    | "RENAME_FILE_REQUEST" => handleRenameFile env st msg.payload
    | "WRITE_FILE_REQUEST" => handleWriteFile env st msg.payload
    | "LIST_BRANCHES_REQUEST" => handleListBranches env st msg.payload
    | "LINK_REPO_REQUEST" => handleLinkRepo env st msg.payload
    | "SWITCH_BRANCH_REQUEST" => handleSwitchBranch env st msg.payload
    | "GIT_STATUS_REQUEST" => handleGitStatus env st msg.payload
    | "GIT_LOG_REQUEST" => handleGitLog env st msg.payload
    | "GIT_DIFF_REQUEST" => handleGitDiff env st msg.payload
    | "GIT_STASH_SAVE_REQUEST" => handleGitStashSave env st msg.payload
    | "GIT_STASH_POP_REQUEST" => handleGitStashPop env st msg.payload
    | "GIT_RESET_REQUEST" => handleGitReset env st msg.payload
    | _ => (st, [])

/-- handleHandshake: only a HANDSHAKE_REQUEST is processed; the operator's
answer decides approval; on approval the peer is added to the trust store
and the store is persisted, after the response is written. -/
def handleHandshake (env : Env) (st : DaemonState) (peer : String) (input : StreamInput) :
    DaemonState × List Event :=
  match readMessage input with
  | .error _ => (st, [])
  | .ok msg =>
    if msg.type = "HANDSHAKE_REQUEST" then
      let approved : Bool := if goTrimSpace (goToLower env.stdinAnswer) = "y" then true else false
      let e1 := [Event.respond "HANDSHAKE_RESPONSE" (.handshake approved)]
      if approved then
        ({ st with trusted := addStr st.trusted peer }, e1 ++ [Event.persistTrust])
      else (st, e1)
    else (st, [])

/-- handleStream: trust-gated routing of one inbound stream. -/
def handleStream (env : Env) (st : DaemonState) (peer : String) (input : StreamInput) :
    DaemonState × List Event :=
  if containsStr st.trusted peer then handleTrustedStream env st input
  else handleHandshake env st peer input

/-! ## Trace observations -/

/-- Is an event a response written back on the stream. -/
def Event.isRespond : Event → Bool
  | .respond _ _ => true
  | _ => false

/-- The responses of a trace. -/
def responsesOf (evs : List Event) : List Event :=
  evs.filter Event.isRespond

/-- Is an event a backend invocation. -/
def Event.isGitRun : Event → Bool
  | .gitRun _ _ => true
  | _ => false

/-- Is an event anything other than a lock operation. -/
def Event.notLock : Event → Bool
  | .lockAcquire _ => false
  | .lockRelease _ => false
  | _ => true

/-- Remove one occurrence of a string. -/
def eraseStr : List String → String → List String
  | [], _ => []
  | x :: xs, k => if x = k then xs else x :: eraseStr xs k

/-- A trace is serialized behind per-repository locks when every backend
invocation happens while the lock of its repository root is held. -/
def guardedRun : List String → List Event → Bool
  | _, [] => true
  | held, e :: es =>
    match e with
    | .lockAcquire r => guardedRun (r :: held) es
    | .lockRelease r => guardedRun (eraseStr held r) es
    | .gitRun dir _ => containsStr held dir && guardedRun held es
    | _ => guardedRun held es

/-- Formalization of backend invocations being serialized behind a
per-repository lock within one handler execution. -/
def serializedPerRepo (evs : List Event) : Bool :=
  guardedRun [] evs

/-! ## Concrete test fixtures -/

/-- A backend that succeeds on everything with empty output. -/
def gitOkAll : String → List String → GitResult :=
  fun _ _ => { out := "", ok := true }

/-- A daemon state with one trusted peer and one linked repository. -/
def st1 : DaemonState :=
  { trusted := ["peerA"], linkedRepos := [("proj", "/a/repo")] }

/-- An environment where every external operation succeeds. -/
def envBenign : Env :=
  { git := gitOkAll
    readFile := fun _ => .ok "SECRET"
    writeFile := fun _ _ => none
    walkDir := fun _ => .ok []
    saveRepos := none
    stdinAnswer := "y"
    cwd := "/home/op" }

/-- An environment whose git status invocation fails. -/
def envStatusFail : Env :=
  { envBenign with git := fun _ args =>
      if args = ["status", "--porcelain"] then
        { out := "fatal: not a git repository", ok := false }
      else { out := "", ok := true } }

/-- An environment whose git log invocation fails. -/
def envLogFail : Env :=
  { envBenign with git := fun _ args =>
      if args = gitLogArgs then { out := "fatal: your current branch does not have any commits yet", ok := false }
      else { out := "", ok := true } }

/-- An environment where reading the current branch fails. -/
def envRevFail : Env :=
  { envBenign with git := fun _ args =>
      if args = ["rev-parse", "--abbrev-ref", "HEAD"] then
        { out := "", ok := false }
      else { out := "", ok := true } }

/-- An environment whose stash list holds a most-recent entry for branch
master2 and an older one for branch master: the master tag is a strict
substring of the master2 line. -/
def envStashCollide : Env :=
  { envBenign with git := fun _ args =>
      if args = ["stash", "list"] then
        { out := "stash@\x7b0\x7d: On master2: p2p-auto-stash-for-master2\nstash@\x7b1\x7d: On master: p2p-auto-stash-for-master"
          ok := true }
      else { out := "", ok := true } }

/-- An environment for a switch from main to dev with a stash waiting for
dev, whose pop then fails with a conflict. -/
def envSwitchPop : Env :=
  { envBenign with git := fun _ args =>
      if args = ["rev-parse", "--abbrev-ref", "HEAD"] then { out := "main\n", ok := true }
      else if args = ["stash", "list"] then
        { out := "stash@\x7b0\x7d: On dev: p2p-auto-stash-for-dev", ok := true }
      else if args = ["stash", "pop", "stash@\x7b0\x7d"] then
        { out := "CONFLICT (content): Merge conflict in f.txt", ok := false }
      else { out := "", ok := true } }

/-- An environment where the daemon is already on branch dev. -/
def envOnDev : Env :=
  { envBenign with git := fun _ args =>
      if args = ["rev-parse", "--abbrev-ref", "HEAD"] then { out := "dev\n", ok := true }
      else { out := "", ok := true } }

/-- An environment where every git invocation fails with the same output. -/
def envGitFailAll : Env :=
  { envBenign with git := fun _ _ => { out := "boom", ok := false } }

/-- An environment whose commit step fails without a nothing-to-commit
message. -/
def envCommitStepFail : Env :=
  { envBenign with git := fun _ args =>
      match args with
      | "commit" :: _ => { out := "error: unable to write commit object", ok := false }
      | _ => { out := "", ok := true } }

/-- An environment on branch main whose checkout of dev fails. -/
def envCheckoutFail : Env :=
  { envBenign with git := fun _ args =>
      if args = ["rev-parse", "--abbrev-ref", "HEAD"] then { out := "main\n", ok := true }
      else if args = ["checkout", "dev"] then
        { out := "error: pathspec 'dev' did not match any file(s)", ok := false }
      else { out := "", ok := true } }

/-- An environment whose commit step fails with a nothing-to-commit
message. -/
def envNothingToCommit : Env :=
  { envBenign with git := fun _ args =>
      match args with
      | "commit" :: _ =>
        { out := "On branch main\nnothing to commit, working tree clean", ok := false }
      | _ => { out := "", ok := true } }

example :
    handleReadFile envBenign st1 (.json [("repo_path", "proj"), ("file_path", "../repo-private/key")]) =
      (st1, [Event.fsRead "/a/repo-private/key",
        Event.respond "READ_FILE_RESPONSE" (.readFile true "SECRET" "")]) := by decide

example :
    handleReadFile envBenign st1 (.json [("repo_path", "proj"), ("file_path", "../../etc/passwd")]) =
      (st1, [Event.respond "READ_FILE_RESPONSE"
        (.readFile false "" "Access denied: path is outside of repository root")]) := by decide

example :
    findStashIndex envStashCollide "/a/repo" "p2p-auto-stash-for-master" =
      ([Event.gitRun "/a/repo" ["stash", "list"]], some "stash@\x7b0\x7d") := by decide

example :
    (handleGitStatus envStatusFail st1 (.json [("repo_path", "proj")])).2 =
      [Event.gitRun "/a/repo" ["status", "--porcelain"],
       Event.respond "GIT_STATUS_RESPONSE" (.gitStatus true "fatal: not a git repository")] := by decide

example :
    (handleSwitchBranch envRevFail st1 (.json [("repo_path", "proj"), ("branch_name", "dev")])).2 =
      [Event.gitRun "/a/repo" ["rev-parse", "--abbrev-ref", "HEAD"]] := by decide

example :
    (handleSwitchBranch envOnDev st1 (.json [("repo_path", "proj"), ("branch_name", "dev")])).2 =
      [Event.gitRun "/a/repo" ["rev-parse", "--abbrev-ref", "HEAD"],
       Event.respond "SWITCH_BRANCH_RESPONSE" (.switchBranch true (alreadyOnMsg "dev"))] := by decide

example :
    (handleSwitchBranch envSwitchPop st1 (.json [("repo_path", "proj"), ("branch_name", "dev")])).2 =
      [Event.gitRun "/a/repo" ["rev-parse", "--abbrev-ref", "HEAD"],
       Event.gitRun "/a/repo" ["stash", "save", "--include-untracked", "p2p-auto-stash-for-main"],
       Event.gitRun "/a/repo" ["checkout", "dev"],
       Event.gitRun "/a/repo" ["stash", "list"],
       Event.gitRun "/a/repo" ["stash", "pop", "stash@\x7b0\x7d"],
       Event.respond "SWITCH_BRANCH_RESPONSE"
         (.switchBranch true (restoredMsg "dev" "CONFLICT (content): Merge conflict in f.txt"))] := by decide

example :
    (handleGitCommit envNothingToCommit st1
      (.json [("repo_path", "proj"), ("message", "wip"), ("branch", "main")])).2 =
      [Event.gitRun "/a/repo" ["checkout", "main"],
       Event.gitRun "/a/repo" ["add", "."],
       Event.gitRun "/a/repo" ["commit", "-m", "wip"],
       Event.respond "GIT_COMMIT_RESPONSE"
         (.gitCommit true "Working tree is clean. Nothing to commit.")] := by decide

example :
    handleStream envBenign st1 "stranger"
      (.ok { type := "GIT_COMMIT_REQUEST", payload := .json [("repo_path", "proj")] }) =
      (st1, []) := by decide

example :
    (handleTrustedStream envBenign st1 .closed).2 =
      [Event.logError "Failed to read command from trusted peer: failed to decode message: EOF"] := by
  decide

example : filepathClean "/a/b/../c" = "/a/c" := by decide
example : filepathClean "/a//b/./" = "/a/b" := by decide
example : filepathClean "" = "." := by decide
example : filepathClean "/.." = "/" := by decide
example : filepathJoin "/a/repo" "../repo-private/key" = "/a/repo-private/key" := by decide
example : filepathJoin "/a/repo" "sub/f.txt" = "/a/repo/sub/f.txt" := by decide
example : resolvesOutside "/a/repo" "../repo-private/key" = true := by decide
example : resolvesOutside "/a/repo" "sub/f.txt" = false := by decide
example : goHasPrefix "/a/repo-private/key" "/a/repo" = true := by decide
example : goContains "stash: p2p-auto-stash-for-master2" "p2p-auto-stash-for-master" = true := by decide
example : goTrimSpace " main\n" = "main" := by decide

/-! ## Helper lemmas -/

/-- The restored-work output and the no-prior-stash output can never
coincide: after cancelling the shared prefix they differ at the third
character (a newline versus a space). -/
theorem restoredMsg_ne_noStashMsg (b p : String) : restoredMsg b p ≠ noStashMsg b := by
  intro h
  have hd := congrArg String.data h
  simp only [restoredMsg, noStashMsg, String.data_append, List.append_assoc] at hd
  have h1 := List.append_cancel_left hd
  have h2 := List.append_cancel_left h1
  have h3 : (("'.\nRestored previous work for this branch:\n").data ++ p.data)[2]? =
      ("'. No previous work was stashed for this branch.").data[2]? :=
    congrArg (fun l => l[2]?) h2
  rw [List.getElem?_append_left (by decide)] at h3
  exact absurd h3 (by decide)

/-! ## Claim C1 -/

/--
Claim C1 (code bug): the spec demands that every peer-supplied relative
path resolving outside the repository root be answered with an
access-denied failure and no side effect.  The code violates this twice:
the strings.HasPrefix containment check accepts sibling directories whose
name extends the root as a string (ReadFile and WriteFile reach the
filesystem outside the root and answer success), and RenameFile performs
no containment check at all, invoking the backend's mv on an escaping path
and answering success.
-/
theorem path_escape_code_bug :
    (resolvesOutside "/a/repo" "../repo-private/key" = true ∧
      handleReadFile envBenign st1 (.json [("repo_path", "proj"), ("file_path", "../repo-private/key")]) =
        (st1, [Event.fsRead "/a/repo-private/key",
          Event.respond "READ_FILE_RESPONSE" (.readFile true "SECRET" "")])) ∧
    (resolvesOutside "/a/repo" "../repo-private/cfg" = true ∧
      handleWriteFile envBenign st1
        (.json [("repo_path", "proj"), ("file_path", "../repo-private/cfg"), ("content", "pwn")]) =
        (st1, [Event.fsWrite "/a/repo-private/cfg" "pwn",
          Event.respond "WRITE_FILE_RESPONSE" (.writeFile true "")])) ∧
    (resolvesOutside "/a/repo" "../outside.txt" = true ∧
      handleRenameFile envBenign st1
        (.json [("repo_path", "proj"), ("old_path", "../outside.txt"), ("new_path", "stolen.txt")]) =
        (st1, [Event.gitRun "/a/repo" ["mv", "../outside.txt", "stolen.txt"],
          Event.respond "RENAME_FILE_RESPONSE" (.renameFile true "")])) := by
  decide

/-! ## Claim C2 -/

/--
Claim C2: a stream from a peer not in the trust store carrying any message
whose type is not a handshake request produces no response, dispatches no
handler, and leaves the daemon state (trust store and repository registry)
unchanged.
-/
theorem untrusted_non_handshake_no_effect (env : Env) (st : DaemonState) (peer : String)
    (m : Message)
    (huntrusted : containsStr st.trusted peer = false)
    (htype : m.type ≠ "HANDSHAKE_REQUEST") :
    handleStream env st peer (.ok m) = (st, []) := by
  simp [handleStream, handleHandshake, readMessage, huntrusted, htype]

/-- Witness for claim C2 at a concrete untrusted peer sending a commit
request. -/
theorem untrusted_non_handshake_no_effect_witness :
    containsStr st1.trusted "stranger" = false ∧
    ("GIT_COMMIT_REQUEST" : String) ≠ "HANDSHAKE_REQUEST" ∧
    handleStream envBenign st1 "stranger"
      (.ok { type := "GIT_COMMIT_REQUEST", payload := .json [("repo_path", "proj")] }) = (st1, []) :=
  ⟨by decide, by decide,
    untrusted_non_handshake_no_effect envBenign st1 "stranger"
      { type := "GIT_COMMIT_REQUEST", payload := .json [("repo_path", "proj")] }
      (by decide) (by decide)⟩

/-! ## Claim C3 -/

/--
Claim C3 (counterexample): a commit request against a known alias invokes
the backend without holding any per-repository lock, so its trace is not
serialized behind one even though it contains backend invocations.
-/
theorem commit_unserialized_counterexample :
    serializedPerRepo (handleGitCommit envBenign st1
      (.json [("repo_path", "proj"), ("message", "m"), ("branch", "main")])).2 = false ∧
    ((handleGitCommit envBenign st1
      (.json [("repo_path", "proj"), ("message", "m"), ("branch", "main")])).2.any Event.isGitRun) = true := by
  decide

/-- The trace of findStashIndex is the single stash-list invocation. -/
theorem findStashIndex_events (env : Env) (p m : String) :
    (findStashIndex env p m).1 = [Event.gitRun p ["stash", "list"]] := rfl

theorem noLock_CommitAndPush (env : Env) (r c re b : String) :
    (CommitAndPush env r c re b).1.all Event.notLock = true := by
  simp only [CommitAndPush]
  split_ifs <;> simp [Event.notLock]

theorem noLock_handleGitCommit (env : Env) (st : DaemonState) (raw : RawPayload) :
    ((handleGitCommit env st raw).2).all Event.notLock = true := by
  unfold handleGitCommit
  cases raw with
  | malformed => simp
  | json fs =>
    cases h : lookupStr st.linkedRepos (getField fs "repo_path") with
    | none => simp [h, Event.notLock]
    | some repoPath => simp [h, Event.notLock, noLock_CommitAndPush]

theorem noLock_handleReadFile (env : Env) (st : DaemonState) (raw : RawPayload) :
    ((handleReadFile env st raw).2).all Event.notLock = true := by
  unfold handleReadFile
  cases raw with
  | malformed => simp
  | json fs =>
    cases h : lookupStr st.linkedRepos (getField fs "repo_path") with
    | none => simp [h, Event.notLock]
    | some repoRoot =>
      simp only [h]
      split_ifs with hp
      · simp [Event.notLock]
      · cases hr : env.readFile (filepathJoin repoRoot (getField fs "file_path")) <;>
          simp [hr, Event.notLock]

theorem noLock_handleWriteFile (env : Env) (st : DaemonState) (raw : RawPayload) :
    ((handleWriteFile env st raw).2).all Event.notLock = true := by
  unfold handleWriteFile
  cases raw with
  | malformed => simp
  | json fs =>
    cases h : lookupStr st.linkedRepos (getField fs "repo_path") with
    | none => simp [h, Event.notLock]
    | some repoRoot =>
      simp only [h]
      split_ifs with hp
      · simp [Event.notLock]
      · cases hw : env.writeFile (filepathJoin repoRoot (getField fs "file_path")) (getField fs "content") <;>
          simp [hw, Event.notLock]

theorem noLock_handleListFiles (env : Env) (st : DaemonState) (raw : RawPayload) :
    ((handleListFiles env st raw).2).all Event.notLock = true := by
  unfold handleListFiles
  cases raw with
  | malformed => simp
  | json fs =>
    cases h : lookupStr st.linkedRepos (getField fs "repo_path") with
    | none => simp [h, Event.notLock]
    | some repoRoot => cases hw : env.walkDir repoRoot <;> simp [h, hw, Event.notLock]

theorem noLock_handleCreateBranch (env : Env) (st : DaemonState) (raw : RawPayload) :
    ((handleCreateBranch env st raw).2).all Event.notLock = true := by
  unfold handleCreateBranch
  cases raw with
  | malformed => simp
  | json fs =>
    cases h : lookupStr st.linkedRepos (getField fs "repo_path") with
    | none => simp [h, Event.notLock]
    | some repoPath => simp [h, Event.notLock]

theorem noLock_handleRenameFile (env : Env) (st : DaemonState) (raw : RawPayload) :
    ((handleRenameFile env st raw).2).all Event.notLock = true := by
  unfold handleRenameFile
  cases h : lookupStr st.linkedRepos (getField raw.fieldsOrZero "repo_path") with
  | none => simp [h, Event.notLock]
  | some repoPath => simp [h, Event.notLock]

theorem noLock_handleListBranches (env : Env) (st : DaemonState) (raw : RawPayload) :
    ((handleListBranches env st raw).2).all Event.notLock = true := by
  unfold handleListBranches
  cases raw with
  | malformed => simp
  | json fs =>
    cases h : lookupStr st.linkedRepos (getField fs "repo_path") with
    | none => simp [h, Event.notLock]
    | some repoPath => simp [h, Event.notLock]

theorem noLock_handleLinkRepo (env : Env) (st : DaemonState) (raw : RawPayload) :
    ((handleLinkRepo env st raw).2).all Event.notLock = true := by
  unfold handleLinkRepo
  cases raw with
  | malformed => simp
  | json fs => cases env.saveRepos <;> simp [Event.notLock]

theorem noLock_handleSwitchBranch (env : Env) (st : DaemonState) (raw : RawPayload) :
    ((handleSwitchBranch env st raw).2).all Event.notLock = true := by
  unfold handleSwitchBranch
  cases h : lookupStr st.linkedRepos (getField raw.fieldsOrZero "repo_path") with
  | none => simp [h, Event.notLock]
  | some repoPath =>
    simp only [h]
    by_cases h1 : (env.git repoPath ["rev-parse", "--abbrev-ref", "HEAD"]).ok = false
    · simp [h1, Event.notLock]
    · by_cases h2 : goTrimSpace (env.git repoPath ["rev-parse", "--abbrev-ref", "HEAD"]).out =
          getField raw.fieldsOrZero "branch_name"
      · simp [h1, h2, Event.notLock]
      · by_cases h3 : (env.git repoPath ["checkout", getField raw.fieldsOrZero "branch_name"]).ok = false
        · simp [h1, h2, h3, Event.notLock]
        · cases h4 : (findStashIndex env repoPath
              ("p2p-auto-stash-for-" ++ getField raw.fieldsOrZero "branch_name")).2 <;>
            simp [h1, h2, h3, h4, findStashIndex_events, Event.notLock]

theorem noLock_handleGitStatus (env : Env) (st : DaemonState) (raw : RawPayload) :
    ((handleGitStatus env st raw).2).all Event.notLock = true := by
  unfold handleGitStatus
  cases h : lookupStr st.linkedRepos (getField raw.fieldsOrZero "repo_path") with
  | none => simp [h, Event.notLock]
  | some repoPath => simp [h, Event.notLock]

theorem noLock_handleGitLog (env : Env) (st : DaemonState) (raw : RawPayload) :
    ((handleGitLog env st raw).2).all Event.notLock = true := by
  unfold handleGitLog
  cases h : lookupStr st.linkedRepos (getField raw.fieldsOrZero "repo_path") with
  | none => simp [h, Event.notLock]
  | some repoPath => simp [h, Event.notLock]

theorem noLock_handleGitDiff (env : Env) (st : DaemonState) (raw : RawPayload) :
    ((handleGitDiff env st raw).2).all Event.notLock = true := by
  unfold handleGitDiff
  cases h : lookupStr st.linkedRepos (getField raw.fieldsOrZero "repo_path") with
  | none => simp [h, Event.notLock]
  | some repoPath => simp [h, Event.notLock]

theorem noLock_handleGitStashSave (env : Env) (st : DaemonState) (raw : RawPayload) :
    ((handleGitStashSave env st raw).2).all Event.notLock = true := by
  unfold handleGitStashSave
  cases h : lookupStr st.linkedRepos (getField raw.fieldsOrZero "repo_path") with
  | none => simp [h, Event.notLock]
  | some repoPath => simp [h, Event.notLock]

theorem noLock_handleGitStashPop (env : Env) (st : DaemonState) (raw : RawPayload) :
    ((handleGitStashPop env st raw).2).all Event.notLock = true := by
  unfold handleGitStashPop
  cases h : lookupStr st.linkedRepos (getField raw.fieldsOrZero "repo_path") with
  | none => simp [h, Event.notLock]
  | some repoPath => simp [h, Event.notLock]

theorem noLock_handleGitReset (env : Env) (st : DaemonState) (raw : RawPayload) :
    ((handleGitReset env st raw).2).all Event.notLock = true := by
  unfold handleGitReset
  cases h : lookupStr st.linkedRepos (getField raw.fieldsOrZero "repo_path") with
  | none => simp [h, Event.notLock]
  | some repoPath => simp [h, Event.notLock]

/--
Claim C3 (amended): the daemon implements no per-repository locking at
all — no execution of the stream handler ever emits a lock acquisition or
release, so concurrent backend invocations against the same repository
root are not serialized by the core.
-/
theorem handler_traces_have_no_locks (env : Env) (st : DaemonState) (peer : String)
    (input : StreamInput) :
    ((handleStream env st peer input).2).all Event.notLock = true := by
  unfold handleStream
  split_ifs
  · unfold handleTrustedStream
    cases input with
    | closed =>
      simp only [readMessage]
      split_ifs <;> simp [Event.notLock]
    | bad e =>
      simp only [readMessage]
      split_ifs <;> simp [Event.notLock]
    | ok m =>
      simp only [readMessage]
      split
      · exact noLock_handleGitCommit env st m.payload
      · simp [handleListRepos, Event.notLock]
      · exact noLock_handleReadFile env st m.payload
      · exact noLock_handleListFiles env st m.payload
      · exact noLock_handleCreateBranch env st m.payload
      · exact noLock_handleRenameFile env st m.payload
      · exact noLock_handleWriteFile env st m.payload
      · exact noLock_handleListBranches env st m.payload
      · exact noLock_handleLinkRepo env st m.payload
      · exact noLock_handleSwitchBranch env st m.payload
      · exact noLock_handleGitStatus env st m.payload
      · exact noLock_handleGitLog env st m.payload
      · exact noLock_handleGitDiff env st m.payload
      · exact noLock_handleGitStashSave env st m.payload
      · exact noLock_handleGitStashPop env st m.payload
      · exact noLock_handleGitReset env st m.payload
      · simp
  · unfold handleHandshake
    cases input with
    | closed => simp [readMessage]
    | bad e => simp [readMessage]
    | ok m =>
      simp only [readMessage]
      split_ifs <;> simp [Event.notLock]

/-- Witness for claim C3's amended theorem at a concrete trusted status
request. -/
theorem handler_traces_have_no_locks_witness :
    ((handleStream envBenign st1 "peerA"
      (.ok { type := "GIT_STATUS_REQUEST", payload := .json [("repo_path", "proj")] })).2).all
      Event.notLock = true :=
  handler_traces_have_no_locks envBenign st1 "peerA"
    (.ok { type := "GIT_STATUS_REQUEST", payload := .json [("repo_path", "proj")] })

/-! ## Claim C4 -/

/--
Claim C4 (counterexample): the code's stash search matches by substring
containment of the tag in the whole stash-list line, not by exact message
equality.  On a listing whose most recent entry is tagged for branch
master2 and whose older entry is tagged exactly for branch master, a
search for the master tag selects the master2 entry, while an exact-match
search (as the claim words it) would select the older master entry.
-/
theorem stash_match_not_exact_counterexample :
    findStashIndex envStashCollide "/a/repo" "p2p-auto-stash-for-master" =
      ([Event.gitRun "/a/repo" ["stash", "list"]], some "stash@\x7b0\x7d") ∧
    (envStashCollide.git "/a/repo" ["stash", "list"]).out =
      joinWith "\n" (List.map renderStashLine
        [{ ref := "stash@\x7b0\x7d", branch := "master2", message := "p2p-auto-stash-for-master2" },
         { ref := "stash@\x7b1\x7d", branch := "master", message := "p2p-auto-stash-for-master" }]) ∧
    findStashExact
      [{ ref := "stash@\x7b0\x7d", branch := "master2", message := "p2p-auto-stash-for-master2" },
       { ref := "stash@\x7b1\x7d", branch := "master", message := "p2p-auto-stash-for-master" }]
      "p2p-auto-stash-for-master" = some "stash@\x7b1\x7d" := by
  decide

/--
Claim C4 (amended): the stash search selects the first line, in the
backend's most-recent-first listing order, that CONTAINS the stash tag as
a substring and yields an extractable stash reference; matching is
containment, not exact message equality, so a tag that is a prefix of
another branch's tag can select the wrong entry.
-/
theorem stash_match_first_containing_line (pre post : List String) (l tag ref : String)
    (hpre : ∀ x ∈ pre, goContains x tag = false ∨ extractStashRef x = none)
    (hl : goContains l tag = true) (href : extractStashRef l = some ref) :
    findStashLine (pre ++ l :: post) tag = some ref := by
  induction pre with
  | nil => simp [findStashLine, hl, href]
  | cons x xs ih =>
    have hx := hpre x (List.mem_cons_self x xs)
    have hrest : ∀ y ∈ xs, goContains y tag = false ∨ extractStashRef y = none :=
      fun y hy => hpre y (List.mem_cons_of_mem x hy)
    cases hx with
    | inl hc => simpa [findStashLine, hc] using ih hrest
    | inr hn =>
      cases hcx : goContains x tag with
      | false => simpa [findStashLine, hcx] using ih hrest
      | true => simpa [findStashLine, hcx, hn] using ih hrest

/-- Witness for claim C4's amended theorem on a concrete listing with one
non-matching line before the matching one. -/
theorem stash_match_first_containing_line_witness :
    (∀ x ∈ ["stash@\x7b0\x7d: On other: p2p-auto-stash-for-other"],
      goContains x "p2p-auto-stash-for-dev" = false ∨ extractStashRef x = none) ∧
    goContains "stash@\x7b1\x7d: On dev: p2p-auto-stash-for-dev" "p2p-auto-stash-for-dev" = true ∧
    findStashLine
      (["stash@\x7b0\x7d: On other: p2p-auto-stash-for-other"] ++
        "stash@\x7b1\x7d: On dev: p2p-auto-stash-for-dev" :: []) "p2p-auto-stash-for-dev" =
      some "stash@\x7b1\x7d" :=
  ⟨by decide, by decide,
    stash_match_first_containing_line
      ["stash@\x7b0\x7d: On other: p2p-auto-stash-for-other"] []
      "stash@\x7b1\x7d: On dev: p2p-auto-stash-for-dev" "p2p-auto-stash-for-dev" "stash@\x7b1\x7d"
      (by decide) (by decide) (by decide)⟩

/-! ## Claim C5 -/

/--
Claim C5: after a successful checkout, the response reports success in
both the stash-found and no-stash cases (the checkout itself succeeded),
and the output of the stash-found case — which carries the pop's combined
output, conflicts included — can never coincide with the plain
no-prior-stash output, so a pop failure is surfaced distinctly.
-/
theorem switch_pop_failure_distinct (env : Env) (st : DaemonState)
    (fs : List (String × String)) (repoPath : String)
    (hrepo : lookupStr st.linkedRepos (getField fs "repo_path") = some repoPath)
    (hcur : (env.git repoPath ["rev-parse", "--abbrev-ref", "HEAD"]).ok = true)
    (hne : goTrimSpace (env.git repoPath ["rev-parse", "--abbrev-ref", "HEAD"]).out ≠
      getField fs "branch_name")
    (hco : (env.git repoPath ["checkout", getField fs "branch_name"]).ok = true) :
    (∀ index,
      (findStashIndex env repoPath ("p2p-auto-stash-for-" ++ getField fs "branch_name")).2 =
        some index →
      responsesOf (handleSwitchBranch env st (.json fs)).2 =
        [Event.respond "SWITCH_BRANCH_RESPONSE" (.switchBranch true
          (restoredMsg (getField fs "branch_name")
            (env.git repoPath ["stash", "pop", index]).out))] ∧
      restoredMsg (getField fs "branch_name") (env.git repoPath ["stash", "pop", index]).out ≠
        noStashMsg (getField fs "branch_name")) ∧
    ((findStashIndex env repoPath ("p2p-auto-stash-for-" ++ getField fs "branch_name")).2 = none →
      responsesOf (handleSwitchBranch env st (.json fs)).2 =
        [Event.respond "SWITCH_BRANCH_RESPONSE"
          (.switchBranch true (noStashMsg (getField fs "branch_name")))]) := by
  constructor
  · intro index hidx
    constructor
    · unfold handleSwitchBranch
      simp [RawPayload.fieldsOrZero, hrepo, hcur, hne, hco, hidx, findStashIndex_events,
        responsesOf, Event.isRespond]
    · exact restoredMsg_ne_noStashMsg _ _
  · intro hnone
    unfold handleSwitchBranch
    simp [RawPayload.fieldsOrZero, hrepo, hcur, hne, hco, hnone, findStashIndex_events,
      responsesOf, Event.isRespond]

/-- Witness for claim C5 at a concrete switch from main to dev whose pop
fails with a merge conflict. -/
theorem switch_pop_failure_distinct_witness :
    (findStashIndex envSwitchPop "/a/repo" "p2p-auto-stash-for-dev").2 = some "stash@\x7b0\x7d" ∧
    (responsesOf (handleSwitchBranch envSwitchPop st1
        (.json [("repo_path", "proj"), ("branch_name", "dev")])).2 =
      [Event.respond "SWITCH_BRANCH_RESPONSE" (.switchBranch true
        (restoredMsg "dev" "CONFLICT (content): Merge conflict in f.txt"))] ∧
      restoredMsg "dev" "CONFLICT (content): Merge conflict in f.txt" ≠ noStashMsg "dev") :=
  ⟨by decide,
    (switch_pop_failure_distinct envSwitchPop st1
      [("repo_path", "proj"), ("branch_name", "dev")] "/a/repo"
      (by decide) (by decide) (by decide) (by decide)).1 "stash@\x7b0\x7d" (by decide)⟩

/-! ## Claim C6 -/

/--
Claim C6 (code bug): the claim demands exactly one response on every
SwitchBranch path, but when reading the current branch fails the handler
returns with no response at all: for a known alias whose rev-parse fails,
the trace holds the rev-parse invocation and nothing else — the peer is
left waiting with no answer.
-/
theorem switch_branch_missing_response_code_bug :
    (envRevFail.git "/a/repo" ["rev-parse", "--abbrev-ref", "HEAD"]).ok = false ∧
    handleSwitchBranch envRevFail st1 (.json [("repo_path", "proj"), ("branch_name", "dev")]) =
      (st1, [Event.gitRun "/a/repo" ["rev-parse", "--abbrev-ref", "HEAD"]]) ∧
    responsesOf (handleSwitchBranch envRevFail st1
      (.json [("repo_path", "proj"), ("branch_name", "dev")])).2 = [] := by
  decide

/-! ## Claim C7 -/

/--
Claim C7: switching to the branch that the backend reports as currently
checked out is an idempotent no-op: the trace holds only the rev-parse
read and one success response with the already-on-branch message — no
stash is created and no checkout is performed, and the state is
unchanged.
-/
theorem switch_to_current_branch_noop (env : Env) (st : DaemonState)
    (fs : List (String × String)) (repoPath : String)
    (hrepo : lookupStr st.linkedRepos (getField fs "repo_path") = some repoPath)
    (hcur : (env.git repoPath ["rev-parse", "--abbrev-ref", "HEAD"]).ok = true)
    (heq : goTrimSpace (env.git repoPath ["rev-parse", "--abbrev-ref", "HEAD"]).out =
      getField fs "branch_name") :
    handleSwitchBranch env st (.json fs) =
      (st, [Event.gitRun repoPath ["rev-parse", "--abbrev-ref", "HEAD"],
        Event.respond "SWITCH_BRANCH_RESPONSE"
          (.switchBranch true (alreadyOnMsg (getField fs "branch_name")))]) := by
  unfold handleSwitchBranch
  simp [RawPayload.fieldsOrZero, hrepo, hcur, heq]

/-- Witness for claim C7: the daemon already on dev answers the dev switch
with the already-on-branch message and runs nothing but rev-parse. -/
theorem switch_to_current_branch_noop_witness :
    goTrimSpace (envOnDev.git "/a/repo" ["rev-parse", "--abbrev-ref", "HEAD"]).out = "dev" ∧
    handleSwitchBranch envOnDev st1 (.json [("repo_path", "proj"), ("branch_name", "dev")]) =
      (st1, [Event.gitRun "/a/repo" ["rev-parse", "--abbrev-ref", "HEAD"],
        Event.respond "SWITCH_BRANCH_RESPONSE" (.switchBranch true (alreadyOnMsg "dev"))]) :=
  ⟨by decide,
    switch_to_current_branch_noop envOnDev st1
      [("repo_path", "proj"), ("branch_name", "dev")] "/a/repo"
      (by decide) (by decide) (by decide)⟩

/-! ## Claim C8 -/

/--
Claim C8: a commit request against a known alias whose commit step exits
non-zero with output containing "nothing to commit" is answered with
success and the nothing-to-commit message rather than a failure.
-/
theorem commit_nothing_to_commit_success (env : Env) (st : DaemonState)
    (fs : List (String × String)) (repoPath : String)
    (hrepo : lookupStr st.linkedRepos (getField fs "repo_path") = some repoPath)
    (hco : (env.git repoPath ["checkout", getField fs "branch"]).ok = true)
    (hadd : (env.git repoPath ["add", "."]).ok = true)
    (hcommit : (env.git repoPath ["commit", "-m", getField fs "message"]).ok = false)
    (hmsg : goContains (env.git repoPath ["commit", "-m", getField fs "message"]).out
      "nothing to commit" = true) :
    responsesOf (handleGitCommit env st (.json fs)).2 =
      [Event.respond "GIT_COMMIT_RESPONSE"
        (.gitCommit true "Working tree is clean. Nothing to commit.")] := by
  unfold handleGitCommit CommitAndPush
  simp [hrepo, hco, hadd, hcommit, hmsg, responsesOf, Event.isRespond]

/-- Witness for claim C8 at a concrete clean-tree commit request. -/
theorem commit_nothing_to_commit_success_witness :
    (envNothingToCommit.git "/a/repo" ["commit", "-m", "wip"]).ok = false ∧
    goContains (envNothingToCommit.git "/a/repo" ["commit", "-m", "wip"]).out
      "nothing to commit" = true ∧
    responsesOf (handleGitCommit envNothingToCommit st1
      (.json [("repo_path", "proj"), ("message", "wip"), ("branch", "main")])).2 =
      [Event.respond "GIT_COMMIT_RESPONSE"
        (.gitCommit true "Working tree is clean. Nothing to commit.")] :=
  ⟨by decide, by decide,
    commit_nothing_to_commit_success envNothingToCommit st1
      [("repo_path", "proj"), ("message", "wip"), ("branch", "main")] "/a/repo"
      (by decide) (by decide) (by decide) (by decide) (by decide)⟩

/-! ## Claim C9 -/

/--
Claim C9 (counterexample): the status handler discards the backend's exit
status, so a failing git status IS reported as success — against the
claim that a backend non-zero exit (outside the nothing-to-commit case)
always yields success false.
-/
theorem status_failure_reported_success_counterexample :
    (envStatusFail.git "/a/repo" ["status", "--porcelain"]).ok = false ∧
    (handleGitStatus envStatusFail st1 (.json [("repo_path", "proj")])).2 =
      [Event.gitRun "/a/repo" ["status", "--porcelain"],
       Event.respond "GIT_STATUS_RESPONSE" (.gitStatus true "fatal: not a git repository")] := by
  decide

/--
Claim C9 (amended): backend non-zero exits are surfaced as success false
with the backend's combined output as the diagnostic by CreateBranch,
RenameFile, ListBranches, GitLog, GitDiff (which substitutes a no-
differences message when the output is empty), StashSave, StashPop,
Reset, Commit's commit step (unless its output contains "nothing to
commit") and SwitchBranch's checkout step.  The exceptions: GitStatus
discards the exit status and always answers success true; SwitchBranch's
stash save and stash pop exit statuses do not influence the response
(the switch parts below carry no hypothesis on them, and a failing pop
is still answered success true) and a failed current-branch read yields
no response at all.  So a failing git log is never reported as success,
but a failing git status always is.
-/
theorem backend_failure_surfacing_by_handler :
    (∀ (env : Env) (st : DaemonState) (fs : List (String × String)) (repoPath : String),
      lookupStr st.linkedRepos (getField fs "repo_path") = some repoPath →
      (env.git repoPath ["branch", getField fs "new_branch_name"]).ok = false →
      responsesOf (handleCreateBranch env st (.json fs)).2 =
        [Event.respond "CREATE_BRANCH_RESPONSE"
          (.createBranch false (env.git repoPath ["branch", getField fs "new_branch_name"]).out)]) ∧
    (∀ (env : Env) (st : DaemonState) (fs : List (String × String)) (repoPath : String),
      lookupStr st.linkedRepos (getField fs "repo_path") = some repoPath →
      (env.git repoPath ["mv", getField fs "old_path", getField fs "new_path"]).ok = false →
      responsesOf (handleRenameFile env st (.json fs)).2 =
        [Event.respond "RENAME_FILE_RESPONSE"
          (.renameFile false
            (env.git repoPath ["mv", getField fs "old_path", getField fs "new_path"]).out)]) ∧
    (∀ (env : Env) (st : DaemonState) (fs : List (String × String)) (repoPath : String),
      lookupStr st.linkedRepos (getField fs "repo_path") = some repoPath →
      (env.git repoPath ["branch", "--format", "%(refname:short)"]).ok = false →
      responsesOf (handleListBranches env st (.json fs)).2 =
        [Event.respond "LIST_BRANCHES_RESPONSE"
          (.listBranches false [] (env.git repoPath ["branch", "--format", "%(refname:short)"]).out)]) ∧
    (∀ (env : Env) (st : DaemonState) (fs : List (String × String)) (repoPath : String),
      lookupStr st.linkedRepos (getField fs "repo_path") = some repoPath →
      (env.git repoPath gitLogArgs).ok = false →
      responsesOf (handleGitLog env st (.json fs)).2 =
        [Event.respond "GIT_LOG_RESPONSE" (.gitLog false (env.git repoPath gitLogArgs).out)]) ∧
    (∀ (env : Env) (st : DaemonState) (fs : List (String × String)) (repoPath : String),
      lookupStr st.linkedRepos (getField fs "repo_path") = some repoPath →
      (env.git repoPath (if getField fs "file_path" = "" then ["diff", "--color"]
        else ["diff", "--color", "--", getField fs "file_path"])).ok = false →
      responsesOf (handleGitDiff env st (.json fs)).2 =
        [Event.respond "GIT_DIFF_RESPONSE"
          (.gitDiff false
            (if (env.git repoPath (if getField fs "file_path" = "" then ["diff", "--color"]
                  else ["diff", "--color", "--", getField fs "file_path"])).out = "" then
              "No differences found."
             else (env.git repoPath (if getField fs "file_path" = "" then ["diff", "--color"]
                  else ["diff", "--color", "--", getField fs "file_path"])).out))]) ∧
    (∀ (env : Env) (st : DaemonState) (fs : List (String × String)) (repoPath : String),
      lookupStr st.linkedRepos (getField fs "repo_path") = some repoPath →
      (env.git repoPath ["stash", "save", "--include-untracked", "p2p-remote-stash"]).ok = false →
      responsesOf (handleGitStashSave env st (.json fs)).2 =
        [Event.respond "GIT_STASH_SAVE_RESPONSE"
          (.stashSave false
            (env.git repoPath ["stash", "save", "--include-untracked", "p2p-remote-stash"]).out)]) ∧
    (∀ (env : Env) (st : DaemonState) (fs : List (String × String)) (repoPath : String),
      lookupStr st.linkedRepos (getField fs "repo_path") = some repoPath →
      (env.git repoPath ["stash", "pop"]).ok = false →
      responsesOf (handleGitStashPop env st (.json fs)).2 =
        [Event.respond "GIT_STASH_POP_RESPONSE"
          (.stashPop false (env.git repoPath ["stash", "pop"]).out)]) ∧
    (∀ (env : Env) (st : DaemonState) (fs : List (String × String)) (repoPath : String),
      lookupStr st.linkedRepos (getField fs "repo_path") = some repoPath →
      (env.git repoPath ["reset", "--hard", "HEAD"]).ok = false →
      responsesOf (handleGitReset env st (.json fs)).2 =
        [Event.respond "GIT_RESET_RESPONSE"
          (.gitReset false (env.git repoPath ["reset", "--hard", "HEAD"]).out)]) ∧
    (∀ (env : Env) (st : DaemonState) (fs : List (String × String)) (repoPath : String),
      lookupStr st.linkedRepos (getField fs "repo_path") = some repoPath →
      responsesOf (handleGitStatus env st (.json fs)).2 =
        [Event.respond "GIT_STATUS_RESPONSE" (.gitStatus true
          (if (env.git repoPath ["status", "--porcelain"]).out = "" then "Working tree is clean."
           else (env.git repoPath ["status", "--porcelain"]).out))]) ∧
    (∀ (env : Env) (st : DaemonState) (fs : List (String × String)) (repoPath : String),
      lookupStr st.linkedRepos (getField fs "repo_path") = some repoPath →
      (env.git repoPath ["checkout", getField fs "branch"]).ok = true →
      (env.git repoPath ["add", "."]).ok = true →
      (env.git repoPath ["commit", "-m", getField fs "message"]).ok = false →
      goContains (env.git repoPath ["commit", "-m", getField fs "message"]).out
        "nothing to commit" = false →
      responsesOf (handleGitCommit env st (.json fs)).2 =
        [Event.respond "GIT_COMMIT_RESPONSE"
          (.gitCommit false (env.git repoPath ["commit", "-m", getField fs "message"]).out)]) ∧
    (∀ (env : Env) (st : DaemonState) (fs : List (String × String)) (repoPath : String),
      lookupStr st.linkedRepos (getField fs "repo_path") = some repoPath →
      (env.git repoPath ["rev-parse", "--abbrev-ref", "HEAD"]).ok = true →
      goTrimSpace (env.git repoPath ["rev-parse", "--abbrev-ref", "HEAD"]).out ≠
        getField fs "branch_name" →
      (env.git repoPath ["checkout", getField fs "branch_name"]).ok = false →
      responsesOf (handleSwitchBranch env st (.json fs)).2 =
        [Event.respond "SWITCH_BRANCH_RESPONSE"
          (.switchBranch false (env.git repoPath ["checkout", getField fs "branch_name"]).out)]) ∧
    (∀ (env : Env) (st : DaemonState) (fs : List (String × String)) (repoPath index : String),
      lookupStr st.linkedRepos (getField fs "repo_path") = some repoPath →
      (env.git repoPath ["rev-parse", "--abbrev-ref", "HEAD"]).ok = true →
      goTrimSpace (env.git repoPath ["rev-parse", "--abbrev-ref", "HEAD"]).out ≠
        getField fs "branch_name" →
      (env.git repoPath ["checkout", getField fs "branch_name"]).ok = true →
      (findStashIndex env repoPath ("p2p-auto-stash-for-" ++ getField fs "branch_name")).2 =
        some index →
      (env.git repoPath ["stash", "pop", index]).ok = false →
      responsesOf (handleSwitchBranch env st (.json fs)).2 =
        [Event.respond "SWITCH_BRANCH_RESPONSE" (.switchBranch true
          (restoredMsg (getField fs "branch_name")
            (env.git repoPath ["stash", "pop", index]).out))]) ∧
    (∀ (env : Env) (st : DaemonState) (fs : List (String × String)) (repoPath : String),
      lookupStr st.linkedRepos (getField fs "repo_path") = some repoPath →
      (env.git repoPath ["rev-parse", "--abbrev-ref", "HEAD"]).ok = false →
      responsesOf (handleSwitchBranch env st (.json fs)).2 = []) := by
  refine ⟨?_, ?_, ?_, ?_, ?_, ?_, ?_, ?_, ?_, ?_, ?_, ?_, ?_⟩
  · intro env st fs repoPath hrepo hfail
    unfold handleCreateBranch
    simp [hrepo, hfail, responsesOf, Event.isRespond]
  · intro env st fs repoPath hrepo hfail
    unfold handleRenameFile
    simp [RawPayload.fieldsOrZero, hrepo, hfail, responsesOf, Event.isRespond]
  · intro env st fs repoPath hrepo hfail
    unfold handleListBranches
    simp [hrepo, hfail, responsesOf, Event.isRespond]
  · intro env st fs repoPath hrepo hfail
    unfold handleGitLog
    simp [RawPayload.fieldsOrZero, hrepo, hfail, responsesOf, Event.isRespond]
  · intro env st fs repoPath hrepo hfail
    unfold handleGitDiff
    simp [RawPayload.fieldsOrZero, hrepo, hfail, responsesOf, Event.isRespond]
  · intro env st fs repoPath hrepo hfail
    unfold handleGitStashSave
    simp [RawPayload.fieldsOrZero, hrepo, hfail, responsesOf, Event.isRespond]
  · intro env st fs repoPath hrepo hfail
    unfold handleGitStashPop
    simp [RawPayload.fieldsOrZero, hrepo, hfail, responsesOf, Event.isRespond]
  · intro env st fs repoPath hrepo hfail
    unfold handleGitReset
    simp [RawPayload.fieldsOrZero, hrepo, hfail, responsesOf, Event.isRespond]
  · intro env st fs repoPath hrepo
    unfold handleGitStatus
    simp [RawPayload.fieldsOrZero, hrepo, responsesOf, Event.isRespond]
  · intro env st fs repoPath hrepo hco hadd hcommit hnot
    unfold handleGitCommit CommitAndPush
    simp [hrepo, hco, hadd, hcommit, hnot, responsesOf, Event.isRespond]
  · intro env st fs repoPath hrepo hcur hne hcofail
    unfold handleSwitchBranch
    simp [RawPayload.fieldsOrZero, hrepo, hcur, hne, hcofail, responsesOf, Event.isRespond]
  · intro env st fs repoPath index hrepo hcur hne hco hidx _hpop
    unfold handleSwitchBranch
    simp [RawPayload.fieldsOrZero, hrepo, hcur, hne, hco, hidx, findStashIndex_events,
      responsesOf, Event.isRespond]
  · intro env st fs repoPath hrepo hfail
    unfold handleSwitchBranch
    simp [RawPayload.fieldsOrZero, hrepo, hfail, responsesOf, Event.isRespond]

/-- Witness for claim C9's amended theorem: every part instantiated at a
concrete failing invocation. -/
theorem backend_failure_surfacing_by_handler_witness :
    responsesOf (handleCreateBranch envGitFailAll st1
      (.json [("repo_path", "proj"), ("new_branch_name", "dev")])).2 =
      [Event.respond "CREATE_BRANCH_RESPONSE" (.createBranch false "boom")] ∧
    responsesOf (handleRenameFile envGitFailAll st1
      (.json [("repo_path", "proj"), ("old_path", "a.txt"), ("new_path", "b.txt")])).2 =
      [Event.respond "RENAME_FILE_RESPONSE" (.renameFile false "boom")] ∧
    responsesOf (handleListBranches envGitFailAll st1 (.json [("repo_path", "proj")])).2 =
      [Event.respond "LIST_BRANCHES_RESPONSE" (.listBranches false [] "boom")] ∧
    responsesOf (handleGitLog envGitFailAll st1 (.json [("repo_path", "proj")])).2 =
      [Event.respond "GIT_LOG_RESPONSE" (.gitLog false "boom")] ∧
    responsesOf (handleGitDiff envGitFailAll st1 (.json [("repo_path", "proj")])).2 =
      [Event.respond "GIT_DIFF_RESPONSE" (.gitDiff false "boom")] ∧
    responsesOf (handleGitStashSave envGitFailAll st1 (.json [("repo_path", "proj")])).2 =
      [Event.respond "GIT_STASH_SAVE_RESPONSE" (.stashSave false "boom")] ∧
    responsesOf (handleGitStashPop envGitFailAll st1 (.json [("repo_path", "proj")])).2 =
      [Event.respond "GIT_STASH_POP_RESPONSE" (.stashPop false "boom")] ∧
    responsesOf (handleGitReset envGitFailAll st1 (.json [("repo_path", "proj")])).2 =
      [Event.respond "GIT_RESET_RESPONSE" (.gitReset false "boom")] ∧
    responsesOf (handleGitStatus envGitFailAll st1 (.json [("repo_path", "proj")])).2 =
      [Event.respond "GIT_STATUS_RESPONSE" (.gitStatus true "boom")] ∧
    responsesOf (handleGitCommit envCommitStepFail st1
      (.json [("repo_path", "proj"), ("message", "wip"), ("branch", "main")])).2 =
      [Event.respond "GIT_COMMIT_RESPONSE"
        (.gitCommit false "error: unable to write commit object")] ∧
    responsesOf (handleSwitchBranch envCheckoutFail st1
      (.json [("repo_path", "proj"), ("branch_name", "dev")])).2 =
      [Event.respond "SWITCH_BRANCH_RESPONSE"
        (.switchBranch false "error: pathspec 'dev' did not match any file(s)")] ∧
    responsesOf (handleSwitchBranch envSwitchPop st1
      (.json [("repo_path", "proj"), ("branch_name", "dev")])).2 =
      [Event.respond "SWITCH_BRANCH_RESPONSE" (.switchBranch true
        (restoredMsg "dev" "CONFLICT (content): Merge conflict in f.txt"))] ∧
    responsesOf (handleSwitchBranch envRevFail st1
      (.json [("repo_path", "proj"), ("branch_name", "dev")])).2 = [] := by
  refine ⟨?_, ?_, ?_, ?_, ?_, ?_, ?_, ?_, ?_, ?_, ?_, ?_, ?_⟩
  · simpa using backend_failure_surfacing_by_handler.1 envGitFailAll st1
      [("repo_path", "proj"), ("new_branch_name", "dev")] "/a/repo" (by decide) (by decide)
  · simpa using backend_failure_surfacing_by_handler.2.1 envGitFailAll st1
      [("repo_path", "proj"), ("old_path", "a.txt"), ("new_path", "b.txt")] "/a/repo"
      (by decide) (by decide)
  · simpa using backend_failure_surfacing_by_handler.2.2.1 envGitFailAll st1
      [("repo_path", "proj")] "/a/repo" (by decide) (by decide)
  · simpa using backend_failure_surfacing_by_handler.2.2.2.1 envGitFailAll st1
      [("repo_path", "proj")] "/a/repo" (by decide) (by decide)
  · simpa using backend_failure_surfacing_by_handler.2.2.2.2.1 envGitFailAll st1
      [("repo_path", "proj")] "/a/repo" (by decide) (by decide)
  · simpa using backend_failure_surfacing_by_handler.2.2.2.2.2.1 envGitFailAll st1
      [("repo_path", "proj")] "/a/repo" (by decide) (by decide)
  · simpa using backend_failure_surfacing_by_handler.2.2.2.2.2.2.1 envGitFailAll st1
      [("repo_path", "proj")] "/a/repo" (by decide) (by decide)
  · simpa using backend_failure_surfacing_by_handler.2.2.2.2.2.2.2.1 envGitFailAll st1
      [("repo_path", "proj")] "/a/repo" (by decide) (by decide)
  · simpa using backend_failure_surfacing_by_handler.2.2.2.2.2.2.2.2.1 envGitFailAll st1
      [("repo_path", "proj")] "/a/repo" (by decide)
  · simpa using backend_failure_surfacing_by_handler.2.2.2.2.2.2.2.2.2.1 envCommitStepFail st1
      [("repo_path", "proj"), ("message", "wip"), ("branch", "main")] "/a/repo"
      (by decide) (by decide) (by decide) (by decide) (by decide)
  · simpa using backend_failure_surfacing_by_handler.2.2.2.2.2.2.2.2.2.2.1 envCheckoutFail st1
      [("repo_path", "proj"), ("branch_name", "dev")] "/a/repo"
      (by decide) (by decide) (by decide) (by decide)
  · simpa using backend_failure_surfacing_by_handler.2.2.2.2.2.2.2.2.2.2.2.1 envSwitchPop st1
      [("repo_path", "proj"), ("branch_name", "dev")] "/a/repo" "stash@\x7b0\x7d"
      (by decide) (by decide) (by decide) (by decide) (by decide) (by decide)
  · simpa using backend_failure_surfacing_by_handler.2.2.2.2.2.2.2.2.2.2.2.2 envRevFail st1
      [("repo_path", "proj"), ("branch_name", "dev")] "/a/repo" (by decide) (by decide)

/-! ## Claim C10 -/

/--
Claim C10 (code bug): ReadMessage wraps every decode error, so the EOF of
a stream closed before any message arrives becomes the string "failed to
decode message: EOF", which the trusted read path's comparison against
the bare "EOF" never matches: the benign disconnect IS logged as an
error, so the daemon's read path does not tell the two outcomes apart as
the claim states.
-/
theorem eof_disconnect_logged_code_bug :
    readMessage .closed = .error "failed to decode message: EOF" ∧
    ¬("failed to decode message: EOF" = "EOF") ∧
    (handleTrustedStream envBenign st1 .closed).2 =
      [Event.logError "Failed to read command from trusted peer: failed to decode message: EOF"] :=
  ⟨by rfl, by decide, by decide⟩

end P2PGit
